import Mathlib

/-!
Shallow embedding of the remittance saga engine
(src/remit-python: app/db/models.py, app/db/repositories.py,
app/services/remittance_service.py).

Conventions of the embedding:
* Python `Decimal` values are modelled as rationals (`ℚ`); the operations the
  code performs on them (`*`, `+`, `/` by the literal 100) are exact in both.
* `datetime.utcnow()` is modelled by a logical clock in the database state that
  strictly increases at every persistence operation; `uuid4` event ids are
  modelled by the clock value at append time.
* The external provider gateways (UPI collector, AD Bank converter, Wise
  transmitter) are oracles: each service function takes the gateway response
  for the calls it makes as an explicit argument, and returns the list of
  gateway calls it performed, so that frame properties ("the converter is
  never called") are statable.
* A fallible gateway call is an `Except String` argument, mirroring the
  try/except blocks around `convert_currency` and `create_transfer`.
-/

/-- `TransactionStatus` enum from app/db/models.py. -/
inductive TransactionStatus where
  | INITIATED
  | PAYMENT_PENDING
  | PAYMENT_RECEIVED
  | CONVERSION_IN_PROGRESS
  | CONVERSION_COMPLETE
  | FUNDS_SENT
  | COMPLETED
  | FAILED
  | REFUNDED
deriving DecidableEq, Repr

/-- `EventType` enum from app/db/models.py. -/
inductive EventType where
  | TRANSACTION_CREATED
  | PAYMENT_INITIATED
  | PAYMENT_RECEIVED
  | CONVERSION_INITIATED
  | CONVERSION_COMPLETED
  | TRANSFER_INITIATED
  | TRANSFER_COMPLETED
  | TRANSACTION_COMPLETED
  | TRANSACTION_FAILED
  | REFUND_INITIATED
  | REFUND_COMPLETED
deriving DecidableEq, Repr

/-- A value stored in an `event_data` dict: the code stores strings
(including stringified Decimal amounts, modelled by the rational itself)
and an ISO completion time (modelled by the logical clock). -/
inductive EventValue where
  | str (v : String)
  | rat (v : ℚ)
  | time (t : Nat)
deriving DecidableEq, Repr

/-- The `payment_details` dict accumulated on a transaction: the service only
ever writes the keys `upi_id`, `upi_link` and `upi_reference`. -/
structure PaymentDetails where
  upi_id : Option String
  upi_link : Option String
  upi_reference : Option String
deriving DecidableEq, Repr

/-- `Transaction` model from app/db/models.py. -/
structure Transaction where
  transaction_id : String
  user_id : String
  status : TransactionStatus
  amount_inr : ℚ
  amount_cad : Option ℚ
  exchange_rate : Option ℚ
  fees : Option ℚ
  recipient_details : List (String × String)
  payment_details : PaymentDetails
  wise_transfer_id : Option String
  ad_bank_reference : Option String
  failure_reason : Option String
  created_at : Nat
  updated_at : Nat
deriving DecidableEq, Repr

/-- `TransactionEvent` model from app/db/models.py. -/
structure TransactionEvent where
  transaction_id : String
  event_id : Nat
  event_timestamp : Nat
  event_type : EventType
  event_data : List (String × EventValue)
  actor : String
deriving DecidableEq, Repr

/-- `ExchangeRate` model from app/db/models.py. -/
structure ExchangeRate where
  currency_pair : String
  timestamp : Nat
  rate : ℚ
  source : String
deriving DecidableEq, Repr

/-- The persisted state behind the three repositories
(Transactions, TransactionEvents, ExchangeRates tables), together with the
logical clock standing for `datetime.utcnow()`. -/
structure Db where
  transactions : List Transaction
  events : List TransactionEvent
  rates : List ExchangeRate
  clock : Nat
deriving DecidableEq, Repr

/-- The empty deployment state. -/
def dbEmpty : Db := ⟨[], [], [], 0⟩

/-- `TransactionRepository.get_by_id` (app/db/repositories.py). -/
def getById (db : Db) (tid : String) : Option Transaction :=
  db.transactions.find? (fun t => t.transaction_id == tid)

/-- The `additional_updates` dict passed to `update_status`: across the whole
service the only keys ever passed are `payment_details`, `failure_reason`,
`ad_bank_reference` and `wise_transfer_id`, so the open dict is modelled by
one optional field per key. -/
structure StatusUpdates where
  payment_details : Option PaymentDetails
  failure_reason : Option String
  ad_bank_reference : Option String
  wise_transfer_id : Option String
deriving DecidableEq, Repr

/-- An `update_status` call with no `additional_updates`. -/
def noUpdates : StatusUpdates := ⟨none, none, none, none⟩

/-- Apply the `additional_updates` map to a transaction record (a DynamoDB
SET on each provided attribute). -/
def applyUpdates (t : Transaction) (u : StatusUpdates) : Transaction :=
  { t with
    payment_details := u.payment_details.getD t.payment_details
    failure_reason := (u.failure_reason.map some).getD t.failure_reason
    ad_bank_reference := (u.ad_bank_reference.map some).getD t.ad_bank_reference
    wise_transfer_id := (u.wise_transfer_id.map some).getD t.wise_transfer_id }

/-- The effect of one `SET status, updated_at, additional_updates` update
expression on a stored transaction record. -/
def applyStatusUpdate (s : TransactionStatus) (u : StatusUpdates) (clk : Nat)
    (t : Transaction) : Transaction :=
  { applyUpdates t u with status := s, updated_at := clk }

/-- `TransactionRepository.update_status` (app/db/repositories.py):
an UNCONDITIONAL update expression `SET status, updated_at, ...` — the source
sends no ConditionExpression, so no expected-predecessor check happens.
Every call site in the service first loads the transaction with `get_by_id`,
so the missing-item upsert branch of DynamoDB `update_item` is never
exercised and is modelled as a no-op returning `none`. -/
def update_status (db : Db) (tid : String) (s : TransactionStatus)
    (u : StatusUpdates) : Db × Option Transaction :=
  match db.transactions.find? (fun t => t.transaction_id == tid) with
  | none => ({ db with clock := db.clock + 1 }, none)
  | some t0 =>
    ({ db with
        transactions := db.transactions.map
          (fun t => if t.transaction_id == tid then
            applyStatusUpdate s u db.clock t
          else t)
        clock := db.clock + 1 },
     some (applyStatusUpdate s u db.clock t0))

/-- `TransactionEventRepository.add_event` (app/db/repositories.py):
appends a fresh `TransactionEvent` with `event_timestamp = utcnow()`. -/
def add_event (db : Db) (tid : String) (ty : EventType)
    (data : List (String × EventValue)) (actor : String) : Db :=
  { db with
    events := db.events ++ [⟨tid, db.clock, db.clock, ty, data, actor⟩]
    clock := db.clock + 1 }

/-- `ExchangeRateRepository.add_rate` (app/db/repositories.py). -/
def add_rate (db : Db) (pair : String) (rate : ℚ) (source : String) : Db :=
  { db with
    rates := db.rates ++ [⟨pair, db.clock, rate, source⟩]
    clock := db.clock + 1 }

/-- `TransactionEventRepository.get_events_for_transaction`
(app/db/repositories.py): all events whose partition key is the
transaction id. -/
def eventsFor (db : Db) (tid : String) : List TransactionEvent :=
  db.events.filter (fun e => e.transaction_id == tid)

/-- A call made to one of the three provider gateways, recorded so that
frame claims ("the converter is never called") can be stated. -/
inductive GatewayCall where
  | getRate (pair : String)
  | generateLink (tid : String) (amount : ℚ) (upiId : String)
  | convertCurrency (tid : String) (src tgt : String) (amount : ℚ) (rate : ℚ)
  | createTransfer (tid : String) (src tgt : String) (amount : ℚ)
deriving DecidableEq, Repr

/-- Relevant fields of `Settings` (config/settings.py). The service computes
the fee fraction as the configured percentage divided by 100 (the Python
float-to-Decimal round-trip is exact for the default 0.5). -/
structure Settings where
  DEFAULT_SERVICE_FEE_PERCENT : ℚ
  MIN_TRANSACTION_AMOUNT_INR : ℚ
  MAX_TRANSACTION_AMOUNT_INR : ℚ
deriving DecidableEq, Repr

/-- The default configuration values from config/settings.py. -/
def defaultSettings : Settings := ⟨1 / 2, 1000, 100000⟩

/-- `CanadianRecipient` request model (app/models/remittance.py); the
validated string fields the service forwards to the transmitter. -/
structure CanadianRecipient where
  full_name : String
  bank_name : String
  account_number : String
  transit_number : String
  institution_number : String
deriving DecidableEq, Repr

/-- `RemittanceRequest` (app/models/remittance.py). -/
structure RemittanceRequest where
  amount_inr : ℚ
  sender_id : String
  recipient : CanadianRecipient
deriving DecidableEq, Repr

/-- The `recipient.dict()` payload stored in `recipient_details`. -/
def recipientToData (r : CanadianRecipient) : List (String × String) :=
  [("full_name", r.full_name), ("bank_name", r.bank_name),
   ("account_number", r.account_number), ("transit_number", r.transit_number),
   ("institution_number", r.institution_number)]

/-- `RemittanceResponse` (app/models/remittance.py); `status` is kept as the
enum rather than its (injective) `.value` string. -/
structure RemittanceResponse where
  transaction_id : String
  status : TransactionStatus
  amount_inr : ℚ
  amount_cad : ℚ
  exchange_rate : ℚ
  fees : ℚ
  recipient : List (String × String)
  created_at : Nat
deriving DecidableEq, Repr

/-- `RemittanceCalculation` (app/models/remittance.py). -/
structure RemittanceCalculation where
  amount_inr : ℚ
  exchange_rate : ℚ
  amount_cad : ℚ
  fee_percent : ℚ
  fee_amount : ℚ
  total_amount_inr : ℚ
deriving DecidableEq, Repr

/-- One entry of the `history` list built by `get_transaction_status`. -/
structure HistoryEntry where
  event_type : EventType
  timestamp : Nat
  data : List (String × EventValue)
deriving DecidableEq, Repr

/-- The dict returned by `get_transaction_status` / the
`TransactionStatusResponse` model (app/models/remittance.py): exactly the
fields transaction_id, status, last_updated, history — there is no
failure_reason field. -/
structure TransactionStatusResponse where
  transaction_id : String
  status : TransactionStatus
  last_updated : Nat
  history : List HistoryEntry
deriving DecidableEq, Repr

/-- Errors raised by the direct service calls (`ValueError` with a
"not found" or "not in INITIATED state" message). -/
inductive ServiceError where
  | notFound
  | invalidState
deriving DecidableEq, Repr

/-- The normalized callback event handed to the three webhook handlers:
`transaction_id`, `status`, optional `error_message` and optional
`upi_reference` (the only `event_data.get` keys the handlers read). -/
structure CallbackEvent where
  transaction_id : String
  status : String
  error_message : Option String
  upi_reference : Option String
deriving DecidableEq, Repr

/-- The raw callback body forwarded wholesale as `event_data` when the
handlers log an event with `event_data=event_data`. -/
def CallbackEvent.toData (ev : CallbackEvent) : List (String × EventValue) :=
  [("transaction_id", .str ev.transaction_id), ("status", .str ev.status)]
  ++ (match ev.error_message with
      | some m => [("error_message", EventValue.str m)]
      | none => [])
  ++ (match ev.upi_reference with
      | some r => [("upi_reference", EventValue.str r)]
      | none => [])

/-- `RemittanceService.create_remittance`
(app/services/remittance_service.py, lines 56-122).
`exchange_rate` is the AD Bank gateway's response to `get_exchange_rate`
("INR_CAD"); `newTid` is the uuid4 assigned by the `Transaction`
constructor. -/
def create_remittance (settings : Settings) (db : Db)
    (req : RemittanceRequest) (exchange_rate : ℚ) (newTid : String) :
    Db × RemittanceResponse × List GatewayCall :=
  let db1 := add_rate db "INR_CAD" exchange_rate "AD_BANK"
  let amount_cad := req.amount_inr * exchange_rate
  let fee_percent := settings.DEFAULT_SERVICE_FEE_PERCENT / 100
  let fees := req.amount_inr * fee_percent
  let t : Transaction :=
    { transaction_id := newTid
      user_id := req.sender_id
      status := .INITIATED
      amount_inr := req.amount_inr
      amount_cad := some amount_cad
      exchange_rate := some exchange_rate
      fees := some fees
      recipient_details := recipientToData req.recipient
      payment_details := ⟨none, none, none⟩
      wise_transfer_id := none
      ad_bank_reference := none
      failure_reason := none
      created_at := db1.clock
      updated_at := db1.clock }
  let db2 : Db :=
    { db1 with transactions := db1.transactions ++ [t], clock := db1.clock + 1 }
  let db3 := add_event db2 newTid .TRANSACTION_CREATED
    [("amount_inr", .rat t.amount_inr), ("amount_cad", .rat amount_cad),
     ("exchange_rate", .rat exchange_rate), ("fees", .rat fees)]
    req.sender_id
  (db3,
   { transaction_id := newTid
     status := .INITIATED
     amount_inr := req.amount_inr
     amount_cad := amount_cad
     exchange_rate := exchange_rate
     fees := fees
     recipient := recipientToData req.recipient
     created_at := t.created_at },
   [.getRate "INR_CAD"])

/-- Build the `RemittanceResponse` returned from an updated transaction. -/
def mkResponse (t : Transaction) : RemittanceResponse :=
  { transaction_id := t.transaction_id
    status := t.status
    amount_inr := t.amount_inr
    amount_cad := t.amount_cad.getD 0
    exchange_rate := t.exchange_rate.getD 0
    fees := t.fees.getD 0
    recipient := t.recipient_details
    created_at := t.created_at }

/-- `RemittanceService.confirm_remittance`
(app/services/remittance_service.py, lines 124-189).
`upi_link` is the collector gateway's response to `generate_payment_link`.
The amounts are all set at creation, so `fees` is present on any stored
transaction; `getD 0` stands for the unreachable missing case. -/
def confirm_remittance (db : Db) (tid : String) (upi_id : String)
    (upi_link : String) :
    Db × Except ServiceError RemittanceResponse × List GatewayCall :=
  match getById db tid with
  | none => (db, .error .notFound, [])
  | some t =>
    if t.status ≠ TransactionStatus.INITIATED then
      (db, .error .invalidState, [])
    else
      let amount := t.amount_inr + t.fees.getD 0
      let upd : StatusUpdates := ⟨some ⟨some upi_id, some upi_link, none⟩, none, none, none⟩
      let r1 := update_status db tid .PAYMENT_PENDING upd
      let db2 := add_event r1.1 tid .PAYMENT_INITIATED
        [("upi_id", .str upi_id), ("amount", .rat amount)] "system"
      match r1.2 with
      | some ut => (db2, .ok (mkResponse ut), [.generateLink tid amount upi_id])
      | none =>
        -- unreachable: the update is guarded by the successful lookup above
        (db2, .error .notFound, [.generateLink tid amount upi_id])

/-- `RemittanceService.process_upi_payment_confirmation`
(app/services/remittance_service.py, lines 191-305).
`convResult` is the outcome of the AD Bank `convert_currency` call
(`Except.error` models the raised exception). Returns the new state, the
boolean result and the gateway calls made. -/
def process_upi_payment_confirmation (db : Db) (ev : CallbackEvent)
    (convResult : Except String String) : Db × Bool × List GatewayCall :=
  match getById db ev.transaction_id with
  | none => (db, false, [])
  | some transaction =>
    if ev.status ≠ "SUCCESS" then
      let r1 := update_status db ev.transaction_id .FAILED
        ⟨none, some ("UPI payment failed: " ++ ev.error_message.getD "Unknown error"),
         none, none⟩
      let db2 := add_event r1.1 ev.transaction_id .TRANSACTION_FAILED ev.toData "system"
      (db2, false, [])
    else
      let r1 := update_status db ev.transaction_id .PAYMENT_RECEIVED
        ⟨some { transaction.payment_details with upi_reference := ev.upi_reference },
         none, none, none⟩
      let db2 := add_event r1.1 ev.transaction_id .PAYMENT_RECEIVED ev.toData "system"
      let call := GatewayCall.convertCurrency ev.transaction_id "INR" "CAD"
        transaction.amount_inr (transaction.exchange_rate.getD 0)
      match convResult with
      | .ok conversion_reference =>
        let r2 := update_status db2 ev.transaction_id .CONVERSION_IN_PROGRESS
          ⟨none, none, some conversion_reference, none⟩
        let db3 := add_event r2.1 ev.transaction_id .CONVERSION_INITIATED
          [("ad_bank_reference", .str conversion_reference),
           ("amount_inr", .rat transaction.amount_inr),
           ("amount_cad", .rat (transaction.amount_cad.getD 0)),
           ("exchange_rate", .rat (transaction.exchange_rate.getD 0))] "system"
        (db3, true, [call])
      | .error e =>
        let r2 := update_status db2 ev.transaction_id .FAILED
          ⟨none, some ("Currency conversion failed: " ++ e), none, none⟩
        let db3 := add_event r2.1 ev.transaction_id .TRANSACTION_FAILED
          [("error", .str e)] "system"
        (db3, false, [call])

/-- `RemittanceService.process_adbank_conversion_callback`
(app/services/remittance_service.py, lines 307-423).
`transferResult` is the outcome of the Wise `create_transfer` call. -/
def process_adbank_conversion_callback (db : Db) (ev : CallbackEvent)
    (transferResult : Except String String) : Db × Bool × List GatewayCall :=
  match getById db ev.transaction_id with
  | none => (db, false, [])
  | some transaction =>
    if ev.status ≠ "SUCCESS" then
      let r1 := update_status db ev.transaction_id .FAILED
        ⟨none, some ("Currency conversion failed: " ++ ev.error_message.getD "Unknown error"),
         none, none⟩
      let db2 := add_event r1.1 ev.transaction_id .TRANSACTION_FAILED ev.toData "system"
      (db2, false, [])
    else
      let r1 := update_status db ev.transaction_id .CONVERSION_COMPLETE noUpdates
      let db2 := add_event r1.1 ev.transaction_id .CONVERSION_COMPLETED ev.toData "system"
      let call := GatewayCall.createTransfer ev.transaction_id "CAD" "CAD"
        (transaction.amount_cad.getD 0)
      match transferResult with
      | .ok transfer_id =>
        let r2 := update_status db2 ev.transaction_id .FUNDS_SENT
          ⟨none, none, none, some transfer_id⟩
        let db3 := add_event r2.1 ev.transaction_id .TRANSFER_INITIATED
          [("wise_transfer_id", .str transfer_id),
           ("amount_cad", .rat (transaction.amount_cad.getD 0))] "system"
        (db3, true, [call])
      | .error e =>
        let r2 := update_status db2 ev.transaction_id .FAILED
          ⟨none, some ("Transfer to Canada failed: " ++ e), none, none⟩
        let db3 := add_event r2.1 ev.transaction_id .TRANSACTION_FAILED
          [("error", .str e)] "system"
        (db3, false, [call])

/-- `RemittanceService.process_wise_transfer_callback`
(app/services/remittance_service.py, lines 425-489). Makes no gateway call. -/
def process_wise_transfer_callback (db : Db) (ev : CallbackEvent) : Db × Bool :=
  match getById db ev.transaction_id with
  | none => (db, false)
  | some _ =>
    if ev.status ≠ "SUCCESS" then
      let r1 := update_status db ev.transaction_id .FAILED
        ⟨none, some ("Transfer to Canada failed: " ++ ev.error_message.getD "Unknown error"),
         none, none⟩
      let db2 := add_event r1.1 ev.transaction_id .TRANSACTION_FAILED ev.toData "system"
      (db2, false)
    else
      let r1 := update_status db ev.transaction_id .COMPLETED noUpdates
      let db2 := add_event r1.1 ev.transaction_id .TRANSFER_COMPLETED ev.toData "system"
      let db3 := add_event db2 ev.transaction_id .TRANSACTION_COMPLETED
        [("completed_at", .time db2.clock)] "system"
      (db3, true)

/-- The ordering used on events by `get_transaction_status`
(Python `sorted(events, key=lambda x: x.event_timestamp)`). -/
def tsLe (a b : TransactionEvent) : Prop := a.event_timestamp ≤ b.event_timestamp

instance : DecidableRel tsLe := fun a b => Nat.decLe a.event_timestamp b.event_timestamp

instance : IsTotal TransactionEvent tsLe := ⟨fun a b => Nat.le_total a.event_timestamp b.event_timestamp⟩

instance : IsTrans TransactionEvent tsLe := ⟨fun _ _ _ h1 h2 => Nat.le_trans h1 h2⟩

/-- One formatted entry of the returned `history` list. -/
def mkHistoryEntry (e : TransactionEvent) : HistoryEntry :=
  ⟨e.event_type, e.event_timestamp, e.event_data⟩

/-- `RemittanceService.get_transaction_status`
(app/services/remittance_service.py, lines 491-521): loads the transaction
(ValueError if missing), loads the events, sorts them by `event_timestamp`
and formats them; returns transaction_id, status, last_updated, history. -/
def get_transaction_status (db : Db) (tid : String) :
    Except ServiceError TransactionStatusResponse :=
  match getById db tid with
  | none => .error .notFound
  | some t =>
    let events := eventsFor db tid
    let history := (events.insertionSort tsLe).map mkHistoryEntry
    .ok ⟨t.transaction_id, t.status, t.updated_at, history⟩

/-- `RemittanceService.calculate_remittance`
(app/services/remittance_service.py, lines 523-556). `exchange_rate` is the
AD Bank gateway's fresh response for this call; the state is threaded to
make the absence of persistence visible. -/
def calculate_remittance (settings : Settings) (db : Db) (amount_inr : ℚ)
    (exchange_rate : ℚ) : Db × RemittanceCalculation × List GatewayCall :=
  let amount_cad := amount_inr * exchange_rate
  let fee_percent := settings.DEFAULT_SERVICE_FEE_PERCENT / 100
  let fee_amount := amount_inr * fee_percent
  let total_amount_inr := amount_inr + fee_amount
  (db,
   { amount_inr := amount_inr
     exchange_rate := exchange_rate
     amount_cad := amount_cad
     fee_percent := fee_percent * 100
     fee_amount := fee_amount
     total_amount_inr := total_amount_inr },
   [.getRate "INR_CAD"])

/-- Number of events of a given type recorded for a given transaction. -/
def countType (l : List TransactionEvent) (tid : String) (ty : EventType) : Nat :=
  (l.filter (fun e => e.transaction_id == tid && e.event_type == ty)).length

/-- Whether a gateway call is a conversion attempt at the converter. -/
def isConversionCall (c : GatewayCall) : Bool :=
  match c with
  | GatewayCall.convertCurrency _ _ _ _ _ => true
  | _ => false

theorem update_status_events (db : Db) (tid : String) (s : TransactionStatus)
    (u : StatusUpdates) : (update_status db tid s u).1.events = db.events := by
  unfold update_status
  cases db.transactions.find? (fun t => t.transaction_id == tid) <;> rfl

theorem getById_add_event (db : Db) (tid : String) (ty : EventType)
    (d : List (String × EventValue)) (a : String) (tid2 : String) :
    getById (add_event db tid ty d a) tid2 = getById db tid2 := rfl

theorem add_event_events (db : Db) (tid : String) (ty : EventType)
    (d : List (String × EventValue)) (a : String) :
    (add_event db tid ty d a).events
      = db.events ++ [⟨tid, db.clock, db.clock, ty, d, a⟩] := rfl

theorem find_map_update (l : List Transaction) (tid : String)
    (g : Transaction → Transaction)
    (hg : ∀ t, (g t).transaction_id = t.transaction_id) :
    (l.map (fun t => if t.transaction_id == tid then g t else t)).find?
        (fun t => t.transaction_id == tid)
      = (l.find? (fun t => t.transaction_id == tid)).map g := by
  induction l with
  | nil => rfl
  | cons x xs ih =>
    simp only [List.map_cons]
    by_cases hx : (x.transaction_id == tid) = true
    · rw [if_pos hx]
      have hgx : ((g x).transaction_id == tid) = true := by rw [hg x]; exact hx
      simp only [List.find?_cons, hgx, hx, Option.map_some']
    · rw [if_neg hx]
      rw [Bool.not_eq_true] at hx
      simp only [List.find?_cons, hx]
      exact ih

theorem getById_update_status (db : Db) (tid : String) (s : TransactionStatus)
    (u : StatusUpdates) (t : Transaction) (h : getById db tid = some t) :
    getById (update_status db tid s u).1 tid
      = some (applyStatusUpdate s u db.clock t) := by
  unfold getById at h ⊢
  unfold update_status
  rw [h]
  simp only []
  rw [find_map_update db.transactions tid (applyStatusUpdate s u db.clock)
    (fun t0 => rfl), h]
  rfl

theorem countType_append_same (l : List TransactionEvent) (e : TransactionEvent)
    (tid : String) (ty : EventType) (h1 : e.transaction_id = tid)
    (h2 : e.event_type = ty) :
    countType (l ++ [e]) tid ty = countType l tid ty + 1 := by
  simp [countType, List.filter_append, h1, h2]

theorem countType_append_ne (l : List TransactionEvent) (e : TransactionEvent)
    (tid : String) (ty : EventType) (h2 : e.event_type ≠ ty) :
    countType (l ++ [e]) tid ty = countType l tid ty := by
  simp [countType, List.filter_append, h2]

/-- Concrete fixtures used by the witnesses and counterexamples below. -/
def recipW : CanadianRecipient :=
  ⟨"John Doe", "Royal Bank of Canada", "12345678", "12345", "123"⟩

/-- A transaction awaiting its collector callback (status PAYMENT_PENDING),
with the amounts of the §8 scenario (10000 INR at rate 0.017, fee 0.5%). -/
def txPending : Transaction :=
  { transaction_id := "t1"
    user_id := "u1"
    status := .PAYMENT_PENDING
    amount_inr := 10000
    amount_cad := some 170
    exchange_rate := some (17 / 1000)
    fees := some 50
    recipient_details := recipientToData recipW
    payment_details := ⟨some "john@okbank", some "upi://pay/t1", none⟩
    wise_transfer_id := none
    ad_bank_reference := none
    failure_reason := none
    created_at := 0
    updated_at := 1 }

def dbPending : Db := ⟨[txPending], [], [], 10⟩

def txCompleted : Transaction := { txPending with status := .COMPLETED }

def dbCompleted : Db := ⟨[txCompleted], [], [], 20⟩

def txFailed : Transaction :=
  { txPending with status := .FAILED, failure_reason := some "UPI payment failed: declined" }

def dbFailedTx : Db := ⟨[txFailed], [], [], 20⟩

/-- A successful collector callback for transaction t1. -/
def evSuccess : CallbackEvent := ⟨"t1", "SUCCESS", none, some "upi-ref-1"⟩

/-- A failure callback for transaction t1. -/
def evFailure : CallbackEvent := ⟨"t1", "FAILURE", some "network error", none⟩

/-- Claim C1: the code has no compare-and-set on status transitions, so
delivering the same successful collector callback twice is NOT idempotent:
both deliveries report success, the PAYMENT_RECEIVED event is appended
twice, and the converter gateway is called twice. This theorem evaluates
the handler at the failing input (a duplicate delivery of the same
successful callback to a PAYMENT_PENDING transaction). -/
theorem duplicate_collector_callback_double_applies :
    (process_upi_payment_confirmation dbPending evSuccess (.ok "conv-1")).2.1 = true ∧
    (process_upi_payment_confirmation
        (process_upi_payment_confirmation dbPending evSuccess (.ok "conv-1")).1
        evSuccess (.ok "conv-2")).2.1 = true ∧
    countType (process_upi_payment_confirmation
        (process_upi_payment_confirmation dbPending evSuccess (.ok "conv-1")).1
        evSuccess (.ok "conv-2")).1.events "t1" EventType.PAYMENT_RECEIVED = 2 ∧
    ((process_upi_payment_confirmation dbPending evSuccess (.ok "conv-1")).2.2
      ++ (process_upi_payment_confirmation
            (process_upi_payment_confirmation dbPending evSuccess (.ok "conv-1")).1
            evSuccess (.ok "conv-2")).2.2).countP isConversionCall = 2 := by
  decide

/-- Claim C2: terminal statuses are not terminal in the code — a late
failure-reporting transmitter callback moves a COMPLETED transaction to
FAILED, and a successful collector callback moves a FAILED transaction
forward to CONVERSION_IN_PROGRESS, because no handler checks the stored
status before the unconditional update. -/
theorem terminal_status_overwritten :
    (getById (process_wise_transfer_callback dbCompleted evFailure).1 "t1").map
        Transaction.status = some TransactionStatus.FAILED ∧
    (getById (process_upi_payment_confirmation dbFailedTx evSuccess (.ok "conv-1")).1 "t1").map
        Transaction.status = some TransactionStatus.CONVERSION_IN_PROGRESS := by
  decide

/-- Claim C3: for every creation request, the response and the stored
transaction carry amount_cad = amount_inr * rate, fees = amount_inr *
(configured fee percent / 100), status INITIATED, and exactly one
TRANSACTION_CREATED event is appended with actor = sender id. -/
theorem create_remittance_correct (settings : Settings) (db : Db)
    (req : RemittanceRequest) (rate : ℚ) (tid : String) :
    (create_remittance settings db req rate tid).2.1.amount_cad
        = req.amount_inr * rate ∧
    (create_remittance settings db req rate tid).2.1.fees
        = req.amount_inr * (settings.DEFAULT_SERVICE_FEE_PERCENT / 100) ∧
    (create_remittance settings db req rate tid).2.1.status
        = TransactionStatus.INITIATED ∧
    (∃ t, (create_remittance settings db req rate tid).1.transactions
          = db.transactions ++ [t] ∧
        t.amount_cad = some (req.amount_inr * rate) ∧
        t.fees = some (req.amount_inr * (settings.DEFAULT_SERVICE_FEE_PERCENT / 100)) ∧
        t.status = TransactionStatus.INITIATED) ∧
    (∃ e, (create_remittance settings db req rate tid).1.events
          = db.events ++ [e] ∧
        e.event_type = EventType.TRANSACTION_CREATED ∧
        e.actor = req.sender_id ∧
        e.transaction_id = tid) :=
  ⟨rfl, rfl, rfl, ⟨_, rfl, rfl, rfl, rfl⟩, ⟨_, rfl, rfl, rfl, rfl⟩⟩

/-- Claim C9: CalculateRemittance is a pure projection — the state comes
back unchanged (no transaction, no event, no stored rate quote), exactly
one fresh rate fetch is made, and the returned fields are the arithmetic
projections of the input amount and the fetched rate. -/
theorem calculate_remittance_pure (settings : Settings) (db : Db)
    (amount rate : ℚ) :
    (calculate_remittance settings db amount rate).1 = db ∧
    (calculate_remittance settings db amount rate).2.2
        = [GatewayCall.getRate "INR_CAD"] ∧
    (calculate_remittance settings db amount rate).2.1 =
      { amount_inr := amount
        exchange_rate := rate
        amount_cad := amount * rate
        fee_percent := settings.DEFAULT_SERVICE_FEE_PERCENT / 100 * 100
        fee_amount := amount * (settings.DEFAULT_SERVICE_FEE_PERCENT / 100)
        total_amount_inr := amount + amount * (settings.DEFAULT_SERVICE_FEE_PERCENT / 100) } :=
  ⟨rfl, rfl, rfl⟩

/-- Claim C10: with the same gateway rate and the same configured fee
percent, the estimate of CalculateRemittance coincides with what
CreateRemittance returns and stores, and the estimate's total equals
amount plus fee. -/
theorem estimate_matches_creation (settings : Settings) (db db2 : Db)
    (req : RemittanceRequest) (rate : ℚ) (tid : String) :
    (calculate_remittance settings db2 req.amount_inr rate).2.1.amount_cad
        = (create_remittance settings db req rate tid).2.1.amount_cad ∧
    (calculate_remittance settings db2 req.amount_inr rate).2.1.fee_amount
        = (create_remittance settings db req rate tid).2.1.fees ∧
    (calculate_remittance settings db2 req.amount_inr rate).2.1.total_amount_inr
        = req.amount_inr
          + (calculate_remittance settings db2 req.amount_inr rate).2.1.fee_amount ∧
    (∃ t, (create_remittance settings db req rate tid).1.transactions
          = db.transactions ++ [t] ∧
        t.amount_cad
          = some (calculate_remittance settings db2 req.amount_inr rate).2.1.amount_cad ∧
        t.fees
          = some (calculate_remittance settings db2 req.amount_inr rate).2.1.fee_amount) :=
  ⟨rfl, rfl, rfl, ⟨_, rfl, rfl, rfl⟩⟩

/-- Claim C4: ConfirmRemittance on a missing transaction fails NotFound; on
a transaction whose status is not INITIATED it fails InvalidState; in both
cases the state is returned untouched (no update, no event, no rate write)
and no gateway call is made. -/
theorem confirm_remittance_failure_cases (db : Db) (tid upi_id upi_link : String) :
    (getById db tid = none →
      confirm_remittance db tid upi_id upi_link = (db, .error .notFound, [])) ∧
    (∀ t, getById db tid = some t → t.status ≠ TransactionStatus.INITIATED →
      confirm_remittance db tid upi_id upi_link = (db, .error .invalidState, [])) := by
  constructor
  · intro h
    unfold confirm_remittance
    rw [h]
  · intro t h hs
    unfold confirm_remittance
    rw [h]
    simp only [if_pos hs]

/-- Witness for claim C4 at concrete inputs: an empty store (NotFound) and a
COMPLETED transaction (InvalidState). -/
theorem confirm_remittance_failure_cases_witness :
    confirm_remittance dbEmpty "t1" "john@okbank" "upi://pay/t1"
        = (dbEmpty, .error .notFound, []) ∧
    confirm_remittance dbCompleted "t1" "john@okbank" "upi://pay/t1"
        = (dbCompleted, .error .invalidState, []) :=
  ⟨(confirm_remittance_failure_cases dbEmpty "t1" "john@okbank" "upi://pay/t1").1 rfl,
   (confirm_remittance_failure_cases dbCompleted "t1" "john@okbank" "upi://pay/t1").2
     txCompleted rfl (by decide)⟩

theorem append_ne_empty_left (s e : String) (hs : s.length ≠ 0) : s ++ e ≠ "" := by
  intro hc
  have hl := congrArg String.length hc
  rw [String.length_append] at hl
  have hz : ("" : String).length = 0 := rfl
  rw [hz] at hl
  omega

/-- The shared shape of every failure path: one unconditional update to
FAILED carrying a failure_reason, followed by one TRANSACTION_FAILED
event append. -/
theorem fail_step (db : Db) (tid : String) (t : Transaction) (msg : String)
    (data : List (String × EventValue)) (h : getById db tid = some t) :
    getById (add_event (update_status db tid .FAILED ⟨none, some msg, none, none⟩).1
        tid .TRANSACTION_FAILED data "system") tid
      = some (applyStatusUpdate .FAILED ⟨none, some msg, none, none⟩ db.clock t) ∧
    (applyStatusUpdate .FAILED ⟨none, some msg, none, none⟩ db.clock t).status
      = TransactionStatus.FAILED ∧
    (applyStatusUpdate .FAILED ⟨none, some msg, none, none⟩ db.clock t).failure_reason
      = some msg ∧
    countType (add_event (update_status db tid .FAILED ⟨none, some msg, none, none⟩).1
        tid .TRANSACTION_FAILED data "system").events tid EventType.TRANSACTION_FAILED
      = countType db.events tid EventType.TRANSACTION_FAILED + 1 := by
  refine ⟨?_, rfl, rfl, ?_⟩
  · rw [getById_add_event]
    exact getById_update_status db tid _ _ t h
  · rw [add_event_events, update_status_events]
    exact countType_append_same _ _ _ _ rfl rfl

/-- Claim C6: a collector callback whose status is not SUCCESS, for an
existing transaction, drives it to FAILED with a non-null failure_reason,
appends exactly one TRANSACTION_FAILED event, returns false, and never
calls the converter gateway (empty call trace). -/
theorem collector_failure_no_conversion (db : Db) (ev : CallbackEvent)
    (t : Transaction) (conv : Except String String)
    (h : getById db ev.transaction_id = some t) (hs : ev.status ≠ "SUCCESS") :
    (process_upi_payment_confirmation db ev conv).2.1 = false ∧
    (process_upi_payment_confirmation db ev conv).2.2 = [] ∧
    (∃ t2, getById (process_upi_payment_confirmation db ev conv).1 ev.transaction_id
          = some t2 ∧
        t2.status = TransactionStatus.FAILED ∧
        t2.failure_reason
          = some ("UPI payment failed: " ++ ev.error_message.getD "Unknown error") ∧
        t2.failure_reason ≠ none) ∧
    countType (process_upi_payment_confirmation db ev conv).1.events
        ev.transaction_id EventType.TRANSACTION_FAILED
      = countType db.events ev.transaction_id EventType.TRANSACTION_FAILED + 1 := by
  have hred : process_upi_payment_confirmation db ev conv
      = (add_event (update_status db ev.transaction_id .FAILED
            ⟨none, some ("UPI payment failed: " ++ ev.error_message.getD "Unknown error"),
             none, none⟩).1
          ev.transaction_id .TRANSACTION_FAILED ev.toData "system", false, []) := by
    unfold process_upi_payment_confirmation
    rw [h]
    simp only [if_pos hs]
  obtain ⟨h1, h2, h3, h4⟩ := fail_step db ev.transaction_id t
    ("UPI payment failed: " ++ ev.error_message.getD "Unknown error") ev.toData h
  rw [hred]
  exact ⟨rfl, rfl, ⟨_, h1, h2, h3, by rw [h3]; exact Option.some_ne_none _⟩, h4⟩

/-- Witness for claim C6: a FAILURE collector callback against the pending
transaction fixture. -/
theorem collector_failure_no_conversion_witness :
    (process_upi_payment_confirmation dbPending evFailure (.ok "conv-1")).2.1 = false ∧
    (process_upi_payment_confirmation dbPending evFailure (.ok "conv-1")).2.2 = [] ∧
    (∃ t2, getById (process_upi_payment_confirmation dbPending evFailure (.ok "conv-1")).1
          evFailure.transaction_id = some t2 ∧
        t2.status = TransactionStatus.FAILED ∧
        t2.failure_reason
          = some ("UPI payment failed: " ++ evFailure.error_message.getD "Unknown error") ∧
        t2.failure_reason ≠ none) ∧
    countType (process_upi_payment_confirmation dbPending evFailure (.ok "conv-1")).1.events
        evFailure.transaction_id EventType.TRANSACTION_FAILED
      = countType dbPending.events evFailure.transaction_id EventType.TRANSACTION_FAILED + 1 :=
  collector_failure_no_conversion dbPending evFailure txPending (.ok "conv-1")
    rfl (by decide)

/-- Claim C5: when the downstream provider call throws — the conversion
initiation inside the collector handler, or the transfer initiation inside
the converter handler — the transaction is driven to FAILED with a
non-empty failure_reason naming the cause, exactly one TRANSACTION_FAILED
event is appended, and the handler returns false. -/
theorem provider_failure_drives_failed (db : Db) (ev : CallbackEvent)
    (t : Transaction) (e : String)
    (h : getById db ev.transaction_id = some t) (hs : ev.status = "SUCCESS") :
    ((process_upi_payment_confirmation db ev (.error e)).2.1 = false ∧
     (∃ t2, getById (process_upi_payment_confirmation db ev (.error e)).1
            ev.transaction_id = some t2 ∧
        t2.status = TransactionStatus.FAILED ∧
        t2.failure_reason = some ("Currency conversion failed: " ++ e) ∧
        "Currency conversion failed: " ++ e ≠ "") ∧
     countType (process_upi_payment_confirmation db ev (.error e)).1.events
         ev.transaction_id EventType.TRANSACTION_FAILED
       = countType db.events ev.transaction_id EventType.TRANSACTION_FAILED + 1) ∧
    ((process_adbank_conversion_callback db ev (.error e)).2.1 = false ∧
     (∃ t2, getById (process_adbank_conversion_callback db ev (.error e)).1
            ev.transaction_id = some t2 ∧
        t2.status = TransactionStatus.FAILED ∧
        t2.failure_reason = some ("Transfer to Canada failed: " ++ e) ∧
        "Transfer to Canada failed: " ++ e ≠ "") ∧
     countType (process_adbank_conversion_callback db ev (.error e)).1.events
         ev.transaction_id EventType.TRANSACTION_FAILED
       = countType db.events ev.transaction_id EventType.TRANSACTION_FAILED + 1) := by
  have hcond : ¬(ev.status ≠ "SUCCESS") := fun hc => hc hs
  constructor
  · -- collector handler with a throwing conversion call
    have hupi : process_upi_payment_confirmation db ev (.error e)
        = (add_event (update_status
              (add_event (update_status db ev.transaction_id .PAYMENT_RECEIVED
                 ⟨some { t.payment_details with upi_reference := ev.upi_reference },
                  none, none, none⟩).1
                ev.transaction_id .PAYMENT_RECEIVED ev.toData "system")
              ev.transaction_id .FAILED
              ⟨none, some ("Currency conversion failed: " ++ e), none, none⟩).1
            ev.transaction_id .TRANSACTION_FAILED [("error", .str e)] "system",
           false,
           [GatewayCall.convertCurrency ev.transaction_id "INR" "CAD"
              t.amount_inr (t.exchange_rate.getD 0)]) := by
      unfold process_upi_payment_confirmation
      rw [h]
      simp only [if_neg hcond]
    have hX : getById (add_event (update_status db ev.transaction_id .PAYMENT_RECEIVED
          ⟨some { t.payment_details with upi_reference := ev.upi_reference },
           none, none, none⟩).1
          ev.transaction_id .PAYMENT_RECEIVED ev.toData "system") ev.transaction_id
        = some (applyStatusUpdate .PAYMENT_RECEIVED
            ⟨some { t.payment_details with upi_reference := ev.upi_reference },
             none, none, none⟩ db.clock t) := by
      rw [getById_add_event]
      exact getById_update_status db _ _ _ t h
    obtain ⟨g1, g2, g3, g4⟩ := fail_step _ ev.transaction_id _
      ("Currency conversion failed: " ++ e) [("error", .str e)] hX
    rw [hupi]
    refine ⟨rfl, ⟨_, g1, g2, g3, append_ne_empty_left _ _ (by decide)⟩, ?_⟩
    rw [g4, add_event_events, update_status_events]
    simp [countType, List.filter_append]
  · -- converter handler with a throwing transfer call
    have hadb : process_adbank_conversion_callback db ev (.error e)
        = (add_event (update_status
              (add_event (update_status db ev.transaction_id .CONVERSION_COMPLETE
                 noUpdates).1
                ev.transaction_id .CONVERSION_COMPLETED ev.toData "system")
              ev.transaction_id .FAILED
              ⟨none, some ("Transfer to Canada failed: " ++ e), none, none⟩).1
            ev.transaction_id .TRANSACTION_FAILED [("error", .str e)] "system",
           false,
           [GatewayCall.createTransfer ev.transaction_id "CAD" "CAD"
              (t.amount_cad.getD 0)]) := by
      unfold process_adbank_conversion_callback
      rw [h]
      simp only [if_neg hcond]
    have hX : getById (add_event (update_status db ev.transaction_id
          .CONVERSION_COMPLETE noUpdates).1
          ev.transaction_id .CONVERSION_COMPLETED ev.toData "system") ev.transaction_id
        = some (applyStatusUpdate .CONVERSION_COMPLETE noUpdates db.clock t) := by
      rw [getById_add_event]
      exact getById_update_status db _ _ _ t h
    obtain ⟨g1, g2, g3, g4⟩ := fail_step _ ev.transaction_id _
      ("Transfer to Canada failed: " ++ e) [("error", .str e)] hX
    rw [hadb]
    refine ⟨rfl, ⟨_, g1, g2, g3, append_ne_empty_left _ _ (by decide)⟩, ?_⟩
    rw [g4, add_event_events, update_status_events]
    simp [countType, List.filter_append]

/-- Witness for claim C5: the pending transaction fixture, a successful
callback, and a provider exception with message "boom". -/
theorem provider_failure_drives_failed_witness :
    ((process_upi_payment_confirmation dbPending evSuccess (.error "boom")).2.1 = false ∧
     (∃ t2, getById (process_upi_payment_confirmation dbPending evSuccess (.error "boom")).1
            evSuccess.transaction_id = some t2 ∧
        t2.status = TransactionStatus.FAILED ∧
        t2.failure_reason = some ("Currency conversion failed: " ++ "boom") ∧
        "Currency conversion failed: " ++ "boom" ≠ "") ∧
     countType (process_upi_payment_confirmation dbPending evSuccess (.error "boom")).1.events
         evSuccess.transaction_id EventType.TRANSACTION_FAILED
       = countType dbPending.events evSuccess.transaction_id EventType.TRANSACTION_FAILED + 1) ∧
    ((process_adbank_conversion_callback dbPending evSuccess (.error "boom")).2.1 = false ∧
     (∃ t2, getById (process_adbank_conversion_callback dbPending evSuccess (.error "boom")).1
            evSuccess.transaction_id = some t2 ∧
        t2.status = TransactionStatus.FAILED ∧
        t2.failure_reason = some ("Transfer to Canada failed: " ++ "boom") ∧
        "Transfer to Canada failed: " ++ "boom" ≠ "") ∧
     countType (process_adbank_conversion_callback dbPending evSuccess (.error "boom")).1.events
         evSuccess.transaction_id EventType.TRANSACTION_FAILED
       = countType dbPending.events evSuccess.transaction_id EventType.TRANSACTION_FAILED + 1) :=
  provider_failure_drives_failed dbPending evSuccess txPending "boom" rfl rfl

/-- A TRANSACTION_FAILED event for the failed-transaction fixtures. -/
def evtFailed : TransactionEvent :=
  ⟨"t1", 5, 5, .TRANSACTION_FAILED, [("error", .str "declined")], "system"⟩

def dbFailedA : Db := ⟨[txFailed], [evtFailed], [], 20⟩

def txFailedB : Transaction :=
  { txFailed with failure_reason := some "UPI payment failed: other" }

def dbFailedB : Db := ⟨[txFailedB], [evtFailed], [], 20⟩

/-- Claim C7 counterexample: two stores whose FAILED transaction differs
only in its (populated) failure_reason yield literally identical GetStatus
responses — the response dict (transaction_id, status, last_updated,
history) does not carry failure_reason, so GetStatus does not return it. -/
theorem get_status_omits_failure_reason :
    get_transaction_status dbFailedA "t1" = get_transaction_status dbFailedB "t1" ∧
    (getById dbFailedA "t1").map Transaction.failure_reason
      = some (some "UPI payment failed: declined") ∧
    (getById dbFailedB "t1").map Transaction.failure_reason
      = some (some "UPI payment failed: other") ∧
    (getById dbFailedA "t1").map Transaction.failure_reason
      ≠ (getById dbFailedB "t1").map Transaction.failure_reason := by
  refine ⟨rfl, rfl, rfl, by decide⟩

/-- Claim C7 (amended): querying a FAILED transaction returns status FAILED
and the full event history ordered by event_timestamp ascending (a sorted
permutation of the stored events); the failure_reason stays on the stored
transaction record and is not part of the status response. -/
theorem get_status_failed_returns_history (db : Db) (tid : String)
    (t : Transaction) (h : getById db tid = some t)
    (hs : t.status = TransactionStatus.FAILED) :
    ∃ resp, get_transaction_status db tid = Except.ok resp ∧
      resp.status = TransactionStatus.FAILED ∧
      resp.history = ((eventsFor db tid).insertionSort tsLe).map mkHistoryEntry ∧
      List.Perm ((eventsFor db tid).insertionSort tsLe) (eventsFor db tid) ∧
      ((eventsFor db tid).insertionSort tsLe).Pairwise tsLe := by
  have hresp : get_transaction_status db tid
      = Except.ok ⟨t.transaction_id, t.status, t.updated_at,
          ((eventsFor db tid).insertionSort tsLe).map mkHistoryEntry⟩ := by
    unfold get_transaction_status
    rw [h]
  exact ⟨_, hresp, hs, rfl, List.perm_insertionSort tsLe _,
    List.sorted_insertionSort tsLe _⟩

/-- Witness for the amended claim C7 at the failed-transaction fixture. -/
theorem get_status_failed_returns_history_witness :
    ∃ resp, get_transaction_status dbFailedA "t1" = Except.ok resp ∧
      resp.status = TransactionStatus.FAILED ∧
      resp.history = ((eventsFor dbFailedA "t1").insertionSort tsLe).map mkHistoryEntry ∧
      List.Perm ((eventsFor dbFailedA "t1").insertionSort tsLe) (eventsFor dbFailedA "t1") ∧
      ((eventsFor dbFailedA "t1").insertionSort tsLe).Pairwise tsLe :=
  get_status_failed_returns_history dbFailedA "t1" txFailed rfl rfl

/-- The full success path from the empty store: create, confirm, successful
collector callback (conversion starts), successful converter callback
(transfer starts), successful transmitter callback. All gateway responses
and request fields are parameters. -/
def successRun (settings : Settings) (req : RemittanceRequest)
    (tid upi_id link convRef transferRef upiRef : String) (rate : ℚ) : Db :=
  let db1 := (create_remittance settings dbEmpty req rate tid).1
  let db2 := (confirm_remittance db1 tid upi_id link).1
  let db3 := (process_upi_payment_confirmation db2 ⟨tid, "SUCCESS", none, some upiRef⟩
    (.ok convRef)).1
  let db4 := (process_adbank_conversion_callback db3 ⟨tid, "SUCCESS", none, none⟩
    (.ok transferRef)).1
  (process_wise_transfer_callback db4 ⟨tid, "SUCCESS", none, none⟩).1

/-- Store contents after CreateRemittance in the success-path run
(proof scaffolding: the literal intermediate states of the pipeline). -/
def runTx1 (settings : Settings) (req : RemittanceRequest) (rate : ℚ) : Transaction :=
  { transaction_id := "tx-1"
    user_id := req.sender_id
    status := .INITIATED
    amount_inr := req.amount_inr
    amount_cad := some (req.amount_inr * rate)
    exchange_rate := some rate
    fees := some (req.amount_inr * (settings.DEFAULT_SERVICE_FEE_PERCENT / 100))
    recipient_details := recipientToData req.recipient
    payment_details := ⟨none, none, none⟩
    wise_transfer_id := none
    ad_bank_reference := none
    failure_reason := none
    created_at := 1
    updated_at := 1 }

def runEv1 (settings : Settings) (req : RemittanceRequest) (rate : ℚ) : TransactionEvent :=
  ⟨"tx-1", 2, 2, .TRANSACTION_CREATED,
   [("amount_inr", .rat req.amount_inr), ("amount_cad", .rat (req.amount_inr * rate)),
    ("exchange_rate", .rat rate),
    ("fees", .rat (req.amount_inr * (settings.DEFAULT_SERVICE_FEE_PERCENT / 100)))],
   req.sender_id⟩

def runDb1 (settings : Settings) (req : RemittanceRequest) (rate : ℚ) : Db :=
  ⟨[runTx1 settings req rate], [runEv1 settings req rate],
   [⟨"INR_CAD", 0, rate, "AD_BANK"⟩], 3⟩

theorem run_step1 (settings : Settings) (req : RemittanceRequest) (rate : ℚ) :
    (create_remittance settings dbEmpty req rate "tx-1").1
      = runDb1 settings req rate := rfl

def runTx2 (settings : Settings) (req : RemittanceRequest) (rate : ℚ)
    (upi_id link : String) : Transaction :=
  { runTx1 settings req rate with
    status := .PAYMENT_PENDING
    payment_details := ⟨some upi_id, some link, none⟩
    updated_at := 3 }

def runEv2 (settings : Settings) (req : RemittanceRequest) (upi_id : String) :
    TransactionEvent :=
  ⟨"tx-1", 4, 4, .PAYMENT_INITIATED,
   [("upi_id", .str upi_id),
    ("amount", .rat (req.amount_inr
      + req.amount_inr * (settings.DEFAULT_SERVICE_FEE_PERCENT / 100)))],
   "system"⟩

def runDb2 (settings : Settings) (req : RemittanceRequest) (rate : ℚ)
    (upi_id link : String) : Db :=
  ⟨[runTx2 settings req rate upi_id link],
   [runEv1 settings req rate, runEv2 settings req upi_id],
   [⟨"INR_CAD", 0, rate, "AD_BANK"⟩], 5⟩

theorem run_step2 (settings : Settings) (req : RemittanceRequest) (rate : ℚ)
    (upi_id link : String) :
    (confirm_remittance (runDb1 settings req rate) "tx-1" upi_id link).1
      = runDb2 settings req rate upi_id link := rfl

def runTx4 (settings : Settings) (req : RemittanceRequest) (rate : ℚ)
    (upi_id link upiRef convRef : String) : Transaction :=
  { runTx2 settings req rate upi_id link with
    status := .CONVERSION_IN_PROGRESS
    payment_details := ⟨some upi_id, some link, some upiRef⟩
    ad_bank_reference := some convRef
    updated_at := 7 }

def runEv3 (upiRef : String) : TransactionEvent :=
  ⟨"tx-1", 6, 6, .PAYMENT_RECEIVED,
   [("transaction_id", .str "tx-1"), ("status", .str "SUCCESS"),
    ("upi_reference", .str upiRef)], "system"⟩

def runEv4 (settings : Settings) (req : RemittanceRequest) (rate : ℚ)
    (convRef : String) : TransactionEvent :=
  ⟨"tx-1", 8, 8, .CONVERSION_INITIATED,
   [("ad_bank_reference", .str convRef), ("amount_inr", .rat req.amount_inr),
    ("amount_cad", .rat (req.amount_inr * rate)), ("exchange_rate", .rat rate)],
   "system"⟩

def runDb3 (settings : Settings) (req : RemittanceRequest) (rate : ℚ)
    (upi_id link upiRef convRef : String) : Db :=
  ⟨[runTx4 settings req rate upi_id link upiRef convRef],
   [runEv1 settings req rate, runEv2 settings req upi_id, runEv3 upiRef,
    runEv4 settings req rate convRef],
   [⟨"INR_CAD", 0, rate, "AD_BANK"⟩], 9⟩

theorem run_step3 (settings : Settings) (req : RemittanceRequest) (rate : ℚ)
    (upi_id link upiRef convRef : String) :
    (process_upi_payment_confirmation (runDb2 settings req rate upi_id link)
        ⟨"tx-1", "SUCCESS", none, some upiRef⟩ (.ok convRef)).1
      = runDb3 settings req rate upi_id link upiRef convRef := rfl

def runTx6 (settings : Settings) (req : RemittanceRequest) (rate : ℚ)
    (upi_id link upiRef convRef transferRef : String) : Transaction :=
  { runTx4 settings req rate upi_id link upiRef convRef with
    status := .FUNDS_SENT
    wise_transfer_id := some transferRef
    updated_at := 11 }

def runEv5 : TransactionEvent :=
  ⟨"tx-1", 10, 10, .CONVERSION_COMPLETED,
   [("transaction_id", .str "tx-1"), ("status", .str "SUCCESS")], "system"⟩

def runEv6 (settings : Settings) (req : RemittanceRequest) (rate : ℚ)
    (transferRef : String) : TransactionEvent :=
  ⟨"tx-1", 12, 12, .TRANSFER_INITIATED,
   [("wise_transfer_id", .str transferRef),
    ("amount_cad", .rat (req.amount_inr * rate))], "system"⟩

def runDb4 (settings : Settings) (req : RemittanceRequest) (rate : ℚ)
    (upi_id link upiRef convRef transferRef : String) : Db :=
  ⟨[runTx6 settings req rate upi_id link upiRef convRef transferRef],
   [runEv1 settings req rate, runEv2 settings req upi_id, runEv3 upiRef,
    runEv4 settings req rate convRef, runEv5,
    runEv6 settings req rate transferRef],
   [⟨"INR_CAD", 0, rate, "AD_BANK"⟩], 13⟩

theorem run_step4 (settings : Settings) (req : RemittanceRequest) (rate : ℚ)
    (upi_id link upiRef convRef transferRef : String) :
    (process_adbank_conversion_callback (runDb3 settings req rate upi_id link upiRef convRef)
        ⟨"tx-1", "SUCCESS", none, none⟩ (.ok transferRef)).1
      = runDb4 settings req rate upi_id link upiRef convRef transferRef := rfl

def runTx7 (settings : Settings) (req : RemittanceRequest) (rate : ℚ)
    (upi_id link upiRef convRef transferRef : String) : Transaction :=
  { runTx6 settings req rate upi_id link upiRef convRef transferRef with
    status := .COMPLETED
    updated_at := 13 }

def runEv7 : TransactionEvent :=
  ⟨"tx-1", 14, 14, .TRANSFER_COMPLETED,
   [("transaction_id", .str "tx-1"), ("status", .str "SUCCESS")], "system"⟩

def runEv8 : TransactionEvent :=
  ⟨"tx-1", 15, 15, .TRANSACTION_COMPLETED, [("completed_at", .time 15)], "system"⟩

def runDb5 (settings : Settings) (req : RemittanceRequest) (rate : ℚ)
    (upi_id link upiRef convRef transferRef : String) : Db :=
  ⟨[runTx7 settings req rate upi_id link upiRef convRef transferRef],
   [runEv1 settings req rate, runEv2 settings req upi_id, runEv3 upiRef,
    runEv4 settings req rate convRef, runEv5,
    runEv6 settings req rate transferRef, runEv7, runEv8],
   [⟨"INR_CAD", 0, rate, "AD_BANK"⟩], 16⟩

theorem run_step5 (settings : Settings) (req : RemittanceRequest) (rate : ℚ)
    (upi_id link upiRef convRef transferRef : String) :
    (process_wise_transfer_callback
        (runDb4 settings req rate upi_id link upiRef convRef transferRef)
        ⟨"tx-1", "SUCCESS", none, none⟩).1
      = runDb5 settings req rate upi_id link upiRef convRef transferRef := rfl

/-- Claim C8: after the full success path, GetStatus returns status
COMPLETED and a history holding exactly the eight events
TRANSACTION_CREATED, PAYMENT_INITIATED, PAYMENT_RECEIVED,
CONVERSION_INITIATED, CONVERSION_COMPLETED, TRANSFER_INITIATED,
TRANSFER_COMPLETED, TRANSACTION_COMPLETED in that order, at strictly
ascending event_timestamps — for every request, rate and set of gateway
references. -/
theorem success_path_event_history (settings : Settings)
    (req : RemittanceRequest) (upi_id link convRef transferRef upiRef : String)
    (rate : ℚ) :
    (get_transaction_status
        (successRun settings req "tx-1" upi_id link convRef transferRef upiRef rate)
        "tx-1").toOption.map
      (fun r => (r.status, r.history.map HistoryEntry.event_type,
                 r.history.map HistoryEntry.timestamp))
      = some (TransactionStatus.COMPLETED,
          [EventType.TRANSACTION_CREATED, EventType.PAYMENT_INITIATED,
           EventType.PAYMENT_RECEIVED, EventType.CONVERSION_INITIATED,
           EventType.CONVERSION_COMPLETED, EventType.TRANSFER_INITIATED,
           EventType.TRANSFER_COMPLETED, EventType.TRANSACTION_COMPLETED],
          [2, 4, 6, 8, 10, 12, 14, 15]) ∧
    List.Chain' (fun a b => a < b) [2, 4, 6, 8, 10, 12, 14, 15] := by
  have hrun : successRun settings req "tx-1" upi_id link convRef transferRef upiRef rate
      = runDb5 settings req rate upi_id link upiRef convRef transferRef := by
    show (process_wise_transfer_callback
        ((process_adbank_conversion_callback
          ((process_upi_payment_confirmation
            ((confirm_remittance
              ((create_remittance settings dbEmpty req rate "tx-1").1)
              "tx-1" upi_id link).1)
            ⟨"tx-1", "SUCCESS", none, some upiRef⟩ (.ok convRef)).1)
          ⟨"tx-1", "SUCCESS", none, none⟩ (.ok transferRef)).1)
        ⟨"tx-1", "SUCCESS", none, none⟩).1
      = runDb5 settings req rate upi_id link upiRef convRef transferRef
    rw [run_step1, run_step2, run_step3, run_step4, run_step5]
  rw [hrun]
  exact ⟨rfl, by simp [List.chain'_cons]⟩
